import Mathlib

/-!
# Verification of the SIYI RTSP camera-session module (`src/main.py`)

Shallow embedding of the single source file of the repository:

* the two's-complement hex codec helpers `toHexVal` / `toIntVal`
  (src/main.py lines 32-75);
* the `SIYI.SIYI_RTSP` session class: constructor, `get_current_frame`,
  `start_connection`, `recv_thread_loop`, `close_connection`
  (src/main.py lines 79-423).

Modelling conventions:

* Python machine floats returned by `time.time()` are modelled as exact
  rationals `ℚ`; every claim about them is purely order-theoretic
  (comparisons of differences with the timeout), so no rounding behaviour
  is involved.
* A decoded frame (an OpenCV image) is opaque; it is modelled as `Nat`.
* Attribute reads/writes of the instance are modelled as reads/writes of
  the fields of an explicit state record.  The source's `@property`
  accessors for six of those attributes recurse into themselves (they are
  embedded separately, fuel-indexed, below); the loop/lifecycle functions
  are embedded with plain field semantics, which is the behaviour every
  other part of the source (and its docstrings) assumes for those
  attributes.
* Calls into the external collaborators (`VideoStream(...).start()`,
  `stream_video.read()`, `stream_video.stop()`, `cv2.destroyAllWindows`,
  `threading.Thread.start`) are modelled as event counters in the state,
  and the values produced by `stream_video.read()` / `time.time()` /
  `cv2.waitKey` are supplied as explicit per-iteration inputs.
* Logging calls are diagnostic only (no control flow in the source depends
  on them) and are not modelled, except where a log call itself faults:
  the `except` handlers of `start_connection` reference the attribute
  `self.cameraName`, which does not exist on the instance (the field is
  `camera_name`), so those handlers raise `AttributeError` before reaching
  `exit(1)`; this is modelled explicitly.
-/

/-! ## Hex codec helpers (src/main.py lines 32-75) -/

/-- The lowercase hex character of a digit value, as produced by Python's
`format(v, 'x')`: `0`-`9` then `a`-`f`. -/
def hexChar (d : Nat) : Char :=
  if d < 10 then Char.ofNat (48 + d) else Char.ofNat (87 + d)

/-- Repeated division by 16, most significant digit landing first:
prepends the hex digits of `v` to `acc`; `fuel` bounds the recursion and
any `fuel > v` is enough. -/
def formatHexAux : Nat → Nat → List Char → List Char
  | 0, _, acc => acc
  | fuel + 1, v, acc =>
    if v = 0 then acc
    else formatHexAux fuel (v / 16) (hexChar (v % 16) :: acc)

/-- Python `format(v, 'x')` for a non-negative integer `v`: minimal
lowercase big-endian hex digits, `"0"` for zero. -/
def formatHex (v : Nat) : List Char :=
  if v = 0 then ['0'] else formatHexAux (v + 1) v []

/-- Python `str.zfill`: left-pad with `'0'` to width `w` (our inputs carry
no sign character). -/
def zfill (w : Nat) (cs : List Char) : List Char :=
  List.replicate (w - cs.length) '0' ++ cs

/-- `toHexVal` (src/main.py lines 32-56):

    max_nbits_value = 1<<nbits
    validateVal = (intValue + max_nbits_value)%max_nbits_value
    hexValue = format(validateVal, 'x')
    return hexValue.zfill((nbits + 3) // 4)

Python `%` with a positive modulus agrees with `Int.emod`. -/
def toHexVal (intValue : Int) (nbits : Nat) : String :=
  let max_nbits_value : Int := ((1 <<< nbits : Nat) : Int)
  let validateVal : Int := (intValue + max_nbits_value) % max_nbits_value
  String.mk (zfill ((nbits + 3) / 4) (formatHex validateVal.toNat))

/-- The digit value of one hex character accepted by Python `int(_, 16)`
(`0`-`9`, `a`-`f`, `A`-`F`); `none` for any other character. -/
def parseHexDigit (c : Char) : Option Nat :=
  if '0' ≤ c ∧ c ≤ '9' then some (c.toNat - 48)
  else if 'a' ≤ c ∧ c ≤ 'f' then some (c.toNat - 87)
  else if 'A' ≤ c ∧ c ≤ 'F' then some (c.toNat - 55)
  else none

/-- Big-endian accumulating base-16 evaluation of a character run;
`none` as soon as a non-digit is met. -/
def parseHexAux : List Char → Nat → Option Nat
  | [], acc => some acc
  | c :: rest, acc =>
    match parseHexDigit c with
    | none => none
    | some d => parseHexAux rest (16 * acc + d)

/-- Python `int(s, 16)` on a plain run of hex digits: the base-16 value,
`none` (a `ValueError`) on the empty string or a non-digit. -/
def parseHexNat (cs : List Char) : Option Nat :=
  match cs with
  | [] => none
  | _ => parseHexAux cs 0

/-- `toIntVal` (src/main.py lines 58-75):

    bits = 16
    intValue = int(hexValue, bits)
    if intValue & (1 << (bits-1)):
        intValue -= 1 << bits
    return intValue

`bits = 16` is used both as the parse base and as the two's-complement
width.  `none` models the `ValueError` that `int(_, 16)` raises on a
malformed string. -/
def toIntVal (hexValue : String) : Option Int :=
  let bits : Nat := 16
  match parseHexNat hexValue.data with
  | none => none
  | some n =>
    some (if n &&& (1 <<< (bits - 1)) ≠ 0
          then (n : Int) - ((1 <<< bits : Nat) : Int)
          else (n : Int))

/-! ## The session state (`SIYI.SIYI_RTSP`) -/

/-- A decoded frame is opaque to this module; identified by a `Nat`. -/
abbrev Frame := Nat

/-- The instance attributes of `SIYI.SIYI_RTSP` (src/main.py lines
101-155), plus event counters for the calls the session makes into its
external collaborators. -/
structure RTSPState where
  rtsp_url : String
  camera_name : String
  image_width : Int
  image_height : Int
  current_frame : Option Frame
  debug : Bool
  stopped : Bool
  show_window : Bool
  last_image_time : ℚ
  connection_timeout : ℚ
  /-- number of `VideoStream(self.rtsp_url).start()` calls made so far -/
  streamOpenCount : Nat
  /-- number of `self.recv_thread.start()` calls made so far -/
  threadStartCount : Nat
  /-- number of `self.stream_video.stop()` calls made so far -/
  streamStopCount : Nat
  /-- number of `cv2.destroyAllWindows()` calls made so far -/
  destroyAllWindowsCount : Nat
  deriving DecidableEq, Repr

/-- `get_current_frame` (src/main.py lines 347-357):

    if self.current_frame is None:
        return None
    return self.current_frame
-/
def get_current_frame (s : RTSPState) : Option Frame :=
  match s.current_frame with
  | none => none
  | some f => some f

/-- `close_connection` (src/main.py lines 415-423): two log lines, then

    cv2.destroyAllWindows()
    self.stream_video.stop()
    self.stopped = True

There is no guard on `self.stopped`: every call performs the teardown. -/
def close_connection (s : RTSPState) : RTSPState :=
  { s with
    destroyAllWindowsCount := s.destroyAllWindowsCount + 1,
    streamStopCount := s.streamStopCount + 1,
    stopped := true }

/-- The environment-supplied values consumed by one iteration of
`recv_thread_loop`: the result of `self.stream_video.read()` (a frame or
`None`), the value of `time.time()` at that iteration, and whether
`cv2.waitKey(25) & 0xFF == ord('q')` (only consulted when the preview
window is shown). -/
structure IterInput where
  readResult : Option Frame
  now : ℚ
  quitKey : Bool
  deriving DecidableEq, Repr

/-- One iteration of the `while not self.stopped` body of
`recv_thread_loop` (src/main.py lines 388-410), assuming the loop guard
already passed.  Returns the new state and whether the body executed
`break`:

    self.current_frame = self.stream_video.read()
    current_image_time = time.time()
    if current_image_time - self.last_image_time > self.connection_timeout:
        self.close_connection()
        break
    if self.current_frame is None:
        continue
    self.last_image_time = current_image_time
    if self.show_window:
        cv2.imshow(...)
        key = cv2.waitKey(25) & 0xFF
        if key == ord('q'):
            self.close_connection()
            break
-/
def recv_iter (s : RTSPState) (inp : IterInput) : RTSPState × Bool :=
  let s1 : RTSPState := { s with current_frame := inp.readResult }
  if inp.now - s1.last_image_time > s1.connection_timeout then
    (close_connection s1, true)
  else if s1.current_frame = none then
    (s1, false)
  else
    let s2 : RTSPState := { s1 with last_image_time := inp.now }
    if s2.show_window ∧ inp.quitKey then
      (close_connection s2, true)
    else
      (s2, false)

/-- The `while not self.stopped:` loop of `recv_thread_loop`, driven by a
finite list of per-iteration environment inputs (the run of the loop for
as long as the environment supplies read results/timestamps). -/
def recv_loop_run : RTSPState → List IterInput → RTSPState
  | s, [] => s
  | s, inp :: rest =>
    if s.stopped then s
    else
      let p := recv_iter s inp
      if p.2 then p.1 else recv_loop_run p.1 rest

/-- `recv_thread_loop` (src/main.py lines 383-413): first
`self.last_image_time = time.time()` (the value `t0`), then the loop. -/
def recv_thread_loop (s : RTSPState) (t0 : ℚ) (inps : List IterInput) : RTSPState :=
  recv_loop_run { s with last_image_time := t0 } inps

/-! ## `start_connection` and the constructor -/

/-- How the `try` block of `start_connection` resolves: the open/spawn
succeeds, or `VideoStream(...)`/`start` raises `ConnectionError`,
`FileNotFoundError` (carrying a filename), or some other exception. -/
inductive OpenOutcome where
  | ok
  | connectionError
  | fileNotFound (filename : String)
  | otherError
  deriving DecidableEq, Repr

/-- How a call to `start_connection` (or to the constructor, which ends by
calling it) terminates, as seen by its caller. -/
inductive StartResult where
  /-- the `try` block completed: stream opened, receive thread started -/
  | started (s : RTSPState)
  /-- the handler called `exit(1)`: the process terminates with this code -/
  | processExit (code : Nat)
  /-- the handler itself raised an uncaught `AttributeError`: its
  `self.logger.error(..., self.cameraName, ...)` argument reads the
  attribute `cameraName`, which does not exist on the instance (the field
  is `camera_name`) -/
  | raisedAttributeError
  deriving DecidableEq, Repr

/-- `start_connection` (src/main.py lines 359-381):

    try:
        self.logger.info(...)
        self.stream_video = VideoStream(self.rtsp_url).start()
        self.recv_thread.start()
    except ConnectionError as conn_err:
        self.logger.error("...", self.cameraName, conn_err)   # AttributeError
        exit(1)
    except FileNotFoundError as file_err:
        self.logger.error("Could not find file: %s", file_err.filename)
        exit(1)
    except Exception as other_err:
        self.logger.error("...", self.cameraName, other_err)  # AttributeError
        exit(1)

On `ConnectionError` and on a generic `Exception` the handler's own
`self.cameraName` read raises `AttributeError` before `exit(1)` is
reached, and nothing catches it; only the `FileNotFoundError` handler
(which uses `file_err.filename`) reaches `exit(1)`. -/
def start_connection (s : RTSPState) (outcome : OpenOutcome) : StartResult :=
  match outcome with
  | .ok =>
    .started { s with
      streamOpenCount := s.streamOpenCount + 1,
      threadStartCount := s.threadStartCount + 1 }
  | .connectionError => .raisedAttributeError
  | .fileNotFound _ => .processExit 1
  | .otherError => .raisedAttributeError

/-- Python `rtsp_url.format(port=rtsp_port)` for the templates the class
uses: every occurrence of the placeholder `"{port}"` is replaced by the
port string. -/
def formatPort : List Char → List Char → List Char
  | [], _ => []
  | '{' :: 'p' :: 'o' :: 'r' :: 't' :: '}' :: rest, port => port ++ formatPort rest port
  | c :: rest, port => c :: formatPort rest port

/-- `SIYI_RTSP.__init__` (src/main.py lines 101-155): builds the instance
attributes (with the source's literal defaults for width/height/timeout,
`current_frame = None`, `stopped = False`, `show_window = False`,
`last_image_time = time.time()` — the parameter `tInit`), then ends by
calling `self.start_connection()`.  There is no path that returns a
constructed session without having run `start_connection`. -/
def SIYI_RTSP_init (rtsp_url rtsp_port camera_name : String) (debug : Bool)
    (tInit : ℚ) (outcome : OpenOutcome) : StartResult :=
  let s : RTSPState := {
    rtsp_url := String.mk (formatPort rtsp_url.data rtsp_port.data),
    camera_name := camera_name,
    image_width := 1200,
    image_height := 700,
    current_frame := none,
    debug := debug,
    stopped := false,
    show_window := false,
    last_image_time := tInit,
    connection_timeout := 10,
    streamOpenCount := 0,
    threadStartCount := 0,
    streamStopCount := 0,
    destroyAllWindowsCount := 0 }
  start_connection s outcome

/-- The source's default constructor arguments
(src/main.py lines 101-105). -/
def default_rtsp_url : String := "rtsp://192.168.144.25:{port}/main.264"

/-- Default `rtsp_port` argument. -/
def default_rtsp_port : String := "8554"

/-- Default `camera_name` argument. -/
def default_camera_name : String := "SIYI ZR10"

/-- The session state produced by a successful
`SIYI_RTSP()` construction with the source's default arguments, taking the
construction-time clock value to be `0`. -/
def freshSession : RTSPState := {
  rtsp_url := "rtsp://192.168.144.25:8554/main.264",
  camera_name := "SIYI ZR10",
  image_width := 1200,
  image_height := 700,
  current_frame := none,
  debug := false,
  stopped := false,
  show_window := false,
  last_image_time := 0,
  connection_timeout := 10,
  streamOpenCount := 1,
  threadStartCount := 1,
  streamStopCount := 0,
  destroyAllWindowsCount := 0 }

/-! ## The public operations of a session, as one step relation

Used to state lifecycle invariants (the `stopped` latch): each operation
an outside caller or the loop itself can perform on the session state. -/

/-- One operation on a running session: a pass of the acquisition loop
body (a no-op when `stopped` is already observed true by the loop guard),
an external `close_connection` call, the `set_show_window` preview toggle
(src/main.py lines 281-293), a `get_current_frame` query (pure), or a
`start_connection` call (which only changes the state when its `try`
block completes). -/
inductive SessionOp where
  | loopIter (inp : IterInput)
  | close
  | setShowWindow (b : Bool)
  | getFrame
  | startConn (outcome : OpenOutcome)
  deriving DecidableEq, Repr

/-- Effect of one `SessionOp` on the session state. -/
def applyOp (s : RTSPState) : SessionOp → RTSPState
  | .loopIter inp => if s.stopped then s else (recv_iter s inp).1
  | .close => close_connection s
  | .setShowWindow b => { s with show_window := b }
  | .getFrame => s
  | .startConn outcome =>
    match start_connection s outcome with
    | .started s' => s'
    | _ => s

/-! ## The self-referential `@property` accessors (src/main.py 177-345)

Each of the six `@property` getters returns the very attribute the
property itself manages (`return self.image_width` inside the
`image_width` getter), and each setter assigns to it (`self.image_width =
new_val` inside the `image_width` setter); in Python both re-enter the
same property.  Each accessor is embedded fuel-indexed: the result is
`none` when the call has not produced a value within `fuel` nested
re-entries, so an accessor that never returns is one that is `none` at
every fuel. -/

/-- Getter of the `image_width` property (src/main.py lines 177-186). -/
def image_width_get : Nat → Option Int
  | 0 => none
  | fuel + 1 => image_width_get fuel

/-- Setter of the `image_width` property (src/main.py lines 188-201). -/
def image_width_set (new_val : Int) : Nat → Option Unit
  | 0 => none
  | fuel + 1 => image_width_set new_val fuel

/-- Getter of the `image_height` property (src/main.py lines 203-212). -/
def image_height_get : Nat → Option Int
  | 0 => none
  | fuel + 1 => image_height_get fuel

/-- Setter of the `image_height` property (src/main.py lines 214-227). -/
def image_height_set (new_val : Int) : Nat → Option Unit
  | 0 => none
  | fuel + 1 => image_height_set new_val fuel

/-- Getter of the `debug` property (src/main.py lines 229-238). -/
def debug_get : Nat → Option Bool
  | 0 => none
  | fuel + 1 => debug_get fuel

/-- Setter of the `debug` property (src/main.py lines 240-253). -/
def debug_set (new_val : Bool) : Nat → Option Unit
  | 0 => none
  | fuel + 1 => debug_set new_val fuel

/-- Getter of the `show_window` property (src/main.py lines 255-264). -/
def show_window_get : Nat → Option Bool
  | 0 => none
  | fuel + 1 => show_window_get fuel

/-- Setter of the `show_window` property (src/main.py lines 266-279). -/
def show_window_set (new_val : Bool) : Nat → Option Unit
  | 0 => none
  | fuel + 1 => show_window_set new_val fuel

/-- Getter of the `stopped` property (src/main.py lines 295-304). -/
def stopped_get : Nat → Option Bool
  | 0 => none
  | fuel + 1 => stopped_get fuel

/-- Setter of the `stopped` property (src/main.py lines 306-319). -/
def stopped_set (new_val : Bool) : Nat → Option Unit
  | 0 => none
  | fuel + 1 => stopped_set new_val fuel

/-- Getter of the `connection_timeout` property (src/main.py 321-330). -/
def connection_timeout_get : Nat → Option ℚ
  | 0 => none
  | fuel + 1 => connection_timeout_get fuel

/-- Setter of the `connection_timeout` property (src/main.py 332-345). -/
def connection_timeout_set (new_val : ℚ) : Nat → Option Unit
  | 0 => none
  | fuel + 1 => connection_timeout_set new_val fuel

/-- A character of a lowercase hexadecimal rendering:
`'0'`-`'9'` or `'a'`-`'f'`. -/
def isLowerHexChar (c : Char) : Bool :=
  ('0' ≤ c && c ≤ '9') || ('a' ≤ c && c ≤ 'f')

/-! ## Helper lemmas -/

/-- Parsing inverts rendering on a single hex digit. -/
theorem parseHexDigit_hexChar : ∀ d, d < 16 → parseHexDigit (hexChar d) = some d := by
  decide

/-- Rendered hex digits are lowercase hex characters. -/
theorem isLowerHexChar_hexChar : ∀ d, d < 16 → isLowerHexChar (hexChar d) = true := by
  decide

/-- Splitting an accumulating parse over an append. -/
theorem parseHexAux_append (xs ys : List Char) (acc : Nat) :
    parseHexAux (xs ++ ys) acc =
      match parseHexAux xs acc with
      | none => none
      | some a => parseHexAux ys a := by
  induction xs generalizing acc with
  | nil => simp [parseHexAux]
  | cons c xs ih =>
    simp only [List.cons_append, parseHexAux]
    cases parseHexDigit c with
    | none => rfl
    | some d => exact ih _

/-- The fuel-driven renderer agrees with `Nat.digits` whenever the fuel
exceeds the value. -/
theorem formatHexAux_eq_digits : ∀ (fuel v : Nat) (acc : List Char), v < fuel →
    formatHexAux fuel v acc = ((Nat.digits 16 v).map hexChar).reverse ++ acc := by
  intro fuel
  induction fuel with
  | zero => intro v acc h; exact absurd h (Nat.not_lt_zero _)
  | succ fuel ih =>
    intro v acc h
    rw [formatHexAux]
    by_cases hv : v = 0
    · subst hv; simp
    · rw [if_neg hv]
      rw [ih (v / 16) _ (by
        have hlt : v / 16 < v := Nat.div_lt_self (Nat.pos_of_ne_zero hv) (by norm_num)
        omega)]
      rw [Nat.digits_def' (by norm_num : (1:ℕ) < 16) (Nat.pos_of_ne_zero hv)]
      simp [List.append_assoc]

/-- Closed form of `formatHex` through `Nat.digits`. -/
theorem formatHex_eq (v : Nat) :
    formatHex v = if v = 0 then ['0'] else ((Nat.digits 16 v).map hexChar).reverse := by
  by_cases hv : v = 0
  · simp [formatHex, hv]
  · rw [formatHex, if_neg hv, if_neg hv, formatHexAux_eq_digits (v + 1) v [] (Nat.lt_succ_self v)]
    simp

/-- Accumulating parse of a reversed digit rendering. -/
theorem parseHexAux_rev_digits : ∀ (ds : List Nat), (∀ d ∈ ds, d < 16) → ∀ acc : Nat,
    parseHexAux ((ds.map hexChar).reverse) acc =
      some (acc * 16 ^ ds.length + Nat.ofDigits 16 ds) := by
  intro ds
  induction ds with
  | nil => intro _ acc; simp [parseHexAux, Nat.ofDigits_nil]
  | cons d tl ih =>
    intro hbound acc
    have hd : d < 16 := hbound d (List.mem_cons_self _ _)
    simp only [List.map_cons, List.reverse_cons]
    rw [parseHexAux_append]
    rw [ih (fun x hx => hbound x (List.mem_cons_of_mem _ hx)) acc]
    simp only [parseHexAux, parseHexDigit_hexChar d hd]
    rw [Nat.ofDigits_cons]
    congr 1
    simp only [List.length_cons, pow_succ]
    ring

/-- A hex rendering is never the empty string. -/
theorem formatHex_ne_nil (v : Nat) : formatHex v ≠ [] := by
  rw [formatHex_eq]
  by_cases hv : v = 0
  · simp [hv]
  · simp only [if_neg hv]
    intro h
    rw [List.reverse_eq_nil_iff, List.map_eq_nil_iff] at h
    exact (Nat.digits_ne_nil_iff_ne_zero.mpr hv) h

/-- Parsing inverts rendering on every natural number. -/
theorem parseHexNat_formatHex (v : Nat) : parseHexNat (formatHex v) = some v := by
  have hne := formatHex_ne_nil v
  have haux : parseHexAux (formatHex v) 0 = some v := by
    rw [formatHex_eq]
    by_cases hv : v = 0
    · simp [hv, parseHexAux, parseHexDigit]
    · rw [if_neg hv]
      rw [parseHexAux_rev_digits (Nat.digits 16 v)
        (fun d hd => Nat.digits_lt_base (by norm_num) hd) 0]
      simp [Nat.ofDigits_digits]
  cases h : formatHex v with
  | nil => exact absurd h hne
  | cons c cs =>
    rw [h] at haux
    exact haux

/-- Leading zeros do not change an accumulating parse started at zero. -/
theorem parseHexAux_replicate_zero (k : Nat) :
    parseHexAux (List.replicate k '0') 0 = some 0 := by
  induction k with
  | zero => rfl
  | succ k ih => simpa [List.replicate_succ, parseHexAux, parseHexDigit] using ih

/-- Zero-padding does not change the parsed value of a nonempty digit
run. -/
theorem parseHexNat_zfill (w : Nat) (cs : List Char) (hne : cs ≠ []) :
    parseHexNat (zfill w cs) = parseHexNat cs := by
  unfold zfill
  cases cs with
  | nil => exact absurd rfl hne
  | cons c tl =>
    have hz : List.replicate (w - (c :: tl).length) '0' ++ c :: tl ≠ [] := by simp
    have h1 : parseHexNat (List.replicate (w - (c :: tl).length) '0' ++ c :: tl) =
        parseHexAux (List.replicate (w - (c :: tl).length) '0' ++ c :: tl) 0 := by
      cases hrep : List.replicate (w - (c :: tl).length) '0' ++ c :: tl with
      | nil => exact absurd hrep hz
      | cons x xs => rfl
    rw [h1, parseHexAux_append, parseHexAux_replicate_zero]
    rfl

/-- Length of a zero-padded run. -/
theorem zfill_length (w : Nat) (cs : List Char) :
    (zfill w cs).length = max w cs.length := by
  simp [zfill]
  omega

/-- The rendering of a value below `16 ^ k` has at most `k` digits. -/
theorem formatHex_length_le {v k : Nat} (hv : v < 16 ^ k) (hk : 0 < k) :
    (formatHex v).length ≤ k := by
  rw [formatHex_eq]
  by_cases h0 : v = 0
  · simpa [h0] using hk
  · rw [if_neg h0]
    simp only [List.length_reverse, List.length_map]
    rw [Nat.digits_len 16 v (by norm_num) h0]
    have := (Nat.lt_pow_iff_log_lt (by norm_num : 1 < 16) h0).mp hv
    omega

/-- Every character of a hex rendering is a lowercase hex character. -/
theorem formatHex_chars (v : Nat) (c : Char) (hc : c ∈ formatHex v) :
    isLowerHexChar c = true := by
  rw [formatHex_eq] at hc
  by_cases h0 : v = 0
  · rw [if_pos h0] at hc
    simp at hc
    subst hc
    decide
  · rw [if_neg h0] at hc
    rw [List.mem_reverse, List.mem_map] at hc
    rcases hc with ⟨d, hd, rfl⟩
    exact isLowerHexChar_hexChar d (Nat.digits_lt_base (by norm_num) hd)

/-- The value parsed back out of a `toHexVal` rendering. -/
theorem toHexVal_parse (intValue : Int) (nbits : Nat) :
    parseHexNat (toHexVal intValue nbits).data =
      some (((intValue + ((1 <<< nbits : Nat) : Int)) % ((1 <<< nbits : Nat) : Int)).toNat) := by
  show parseHexNat (zfill ((nbits + 3) / 4) (formatHex _)) = _
  rw [parseHexNat_zfill _ _ (formatHex_ne_nil _), parseHexNat_formatHex]

/-- For 16-bit words the sign-bit mask test of `toIntVal` is the
comparison with `2 ^ 15`. -/
theorem land_bit15 (n : Nat) (hn : n < 65536) :
    (n &&& (1 <<< 15) ≠ 0) ↔ 32768 ≤ n := by
  rw [show (1 <<< 15 : Nat) = 2 ^ 15 from Nat.one_shiftLeft 15]
  rw [Nat.and_two_pow, Nat.testBit_to_div_mod]
  have h15 : (2 : ℕ) ^ 15 = 32768 := by norm_num
  rw [h15]
  rcases Nat.lt_or_ge n 32768 with h | h
  · have hd : n / 32768 = 0 := Nat.div_eq_of_lt h
    simp [hd]
    omega
  · have hd : n / 32768 = 1 := by omega
    simp [hd]
    omega

/-- Runs of the acquisition loop in which every read is a miss and some
iteration's clock exceeds the timeout window end with `stopped = true`. -/
theorem recv_loop_all_miss_timeout_stopped : ∀ (inps : List IterInput) (s : RTSPState),
    s.stopped = false →
    (∀ inp ∈ inps, inp.readResult = none) →
    (∃ inp ∈ inps, inp.now - s.last_image_time > s.connection_timeout) →
    (recv_loop_run s inps).stopped = true := by
  intro inps
  induction inps with
  | nil => intro s _ _ hex; simp at hex
  | cons inp rest ih =>
    intro s hrun hmiss hex
    have hm : inp.readResult = none := hmiss inp (List.mem_cons_self _ _)
    rw [recv_loop_run, if_neg (by simp [hrun])]
    by_cases hto : inp.now - s.last_image_time > s.connection_timeout
    · simp only [recv_iter, hm, if_pos hto]
      simp [close_connection]
    · have hstep : recv_iter s inp = ({ s with current_frame := none }, false) := by
        simp [recv_iter, hm, hto]
      rw [hstep]
      simp only
      apply ih
      · simpa using hrun
      · intro i hi; exact hmiss i (List.mem_cons_of_mem _ hi)
      · rcases hex with ⟨i, hi, hgt⟩
        rcases List.mem_cons.mp hi with rfl | hi'
        · exact absurd hgt hto
        · exact ⟨i, hi', hgt⟩

/-! ## Claims -/

/-- C1, counterexample.  The claim states that an iteration whose read
produces no frame leaves `current_frame` unchanged; but the loop body
assigns `self.current_frame = self.stream_video.read()` before the miss
check, so at the concrete state holding frame `5`, one miss iteration
(read `none` at time `1`, within the timeout window) overwrites the
stored frame with `none` — while indeed continuing to the next iteration
(no break). -/
theorem C1_counterexample :
    ((recv_iter { freshSession with current_frame := some 5 } ⟨none, 1, false⟩).1.current_frame
      ≠ ({ freshSession with current_frame := some 5 } : RTSPState).current_frame) ∧
    (recv_iter { freshSession with current_frame := some 5 } ⟨none, 1, false⟩).2 = false := by
  constructor
  · simp [recv_iter, freshSession, close_connection]
  · simp [recv_iter, freshSession, close_connection]

/-- C1, amended.  For every loop iteration in which the read produces no
frame and the staleness check does not fire, the iteration continues to
the next iteration (no break) leaving `last_image_time`, `stopped` and
every other field unchanged — except `current_frame`, which is
overwritten with the read result `none` by the unconditional assignment
that precedes the miss check. -/
theorem C1_miss_keeps_clock_overwrites_frame (s : RTSPState) (inp : IterInput)
    (hmiss : inp.readResult = none)
    (hto : ¬ (inp.now - s.last_image_time > s.connection_timeout)) :
    recv_iter s inp = ({ s with current_frame := none }, false) := by
  simp [recv_iter, hmiss, hto]

/-- C1, witness for the amended theorem at a concrete input: a running
session with a stored frame, one miss read at time `1` against timeout
`10`. -/
theorem C1_witness :
    (IterInput.mk none 1 false).readResult = none ∧
    ¬ ((IterInput.mk none 1 false).now -
        ({ freshSession with current_frame := some 5 } : RTSPState).last_image_time >
        ({ freshSession with current_frame := some 5 } : RTSPState).connection_timeout) ∧
    recv_iter { freshSession with current_frame := some 5 } (IterInput.mk none 1 false) =
      ({ freshSession with current_frame := none }, false) :=
  ⟨rfl, by norm_num [freshSession],
    C1_miss_keeps_clock_overwrites_frame _ _ rfl (by norm_num [freshSession])⟩

/-- C2, counterexample.  The claim states that after a stop by any path,
`get_current_frame` returns the last frame observed before the stop.  At
the concrete run below the loop reads frame `7` at time `1`, then a miss
at time `20` trips the staleness teardown: the session is stopped, yet
`get_current_frame` returns `none`, not the last observed frame `7` —
the miss read had already cleared the stored frame before the stop. -/
theorem C2_counterexample :
    (recv_thread_loop freshSession 0
        [⟨some 7, 1, false⟩, ⟨none, 20, false⟩]).stopped = true ∧
    get_current_frame (recv_thread_loop freshSession 0
        [⟨some 7, 1, false⟩, ⟨none, 20, false⟩]) = none ∧
    get_current_frame (recv_thread_loop freshSession 0
        [⟨some 7, 1, false⟩, ⟨none, 20, false⟩]) ≠ some 7 := by
  have h : recv_thread_loop freshSession 0 [⟨some 7, 1, false⟩, ⟨none, 20, false⟩] =
      close_connection { freshSession with current_frame := none, last_image_time := 1 } := by
    simp [recv_thread_loop, recv_loop_run, recv_iter, freshSession, close_connection]
    norm_num
  rw [h]
  refine ⟨rfl, rfl, by simp [get_current_frame, close_connection, freshSession]⟩

/-- C2, amended.  The stop path itself never touches the stored frame:
`close_connection` leaves `current_frame` unchanged, `get_current_frame`
returns exactly the stored value (both before and after the stop), and
once the session is stopped no further loop iteration runs, so no
subsequent read modifies the frame.  The value frozen at stop time is the
result of the last read before the stop — which is `none`, not the last
observed frame, when that read was a miss. -/
theorem C2_frame_frozen_from_stop (s : RTSPState) :
    (close_connection s).current_frame = s.current_frame ∧
    get_current_frame (close_connection s) = s.current_frame ∧
    get_current_frame s = s.current_frame ∧
    ∀ inps : List IterInput, recv_loop_run (close_connection s) inps = close_connection s := by
  refine ⟨rfl, ?_, ?_, ?_⟩
  · unfold get_current_frame close_connection
    cases s.current_frame <;> rfl
  · unfold get_current_frame
    cases s.current_frame <;> rfl
  · intro inps
    cases inps <;> simp [recv_loop_run, close_connection]

/-- C3, counterexample.  The claim states that every failure to open the
stream surfaces a distinguishable `ConnectionFailed` error value to the
caller and that the component does not itself terminate the process; but
on `FileNotFoundError` the handler of `start_connection` calls `exit(1)`,
terminating the process. -/
theorem C3_counterexample :
    start_connection freshSession (.fileNotFound "main.264") = .processExit 1 := rfl

/-- C3, amended.  No failure path of `start_connection` returns an error
value to the caller: on `FileNotFoundError` the handler terminates the
process via `exit(1)`; on `ConnectionError` or any other exception the
handler itself raises an uncaught `AttributeError` (its log call reads
the nonexistent attribute `self.cameraName`), which propagates; in no
failure case does the call complete normally. -/
theorem C3_start_failure_behavior (s : RTSPState) (outcome : OpenOutcome)
    (hfail : outcome ≠ .ok) :
    (∀ fn, start_connection s (.fileNotFound fn) = .processExit 1) ∧
    start_connection s .connectionError = .raisedAttributeError ∧
    start_connection s .otherError = .raisedAttributeError ∧
    ∀ s', start_connection s outcome ≠ .started s' := by
  refine ⟨fun fn => rfl, rfl, rfl, ?_⟩
  intro s'
  cases outcome with
  | ok => exact absurd rfl hfail
  | connectionError => simp [start_connection]
  | fileNotFound fn => simp [start_connection]
  | otherError => simp [start_connection]

/-- C3, witness for the amended theorem at the concrete outcome
`connectionError`. -/
theorem C3_witness :
    (OpenOutcome.connectionError ≠ OpenOutcome.ok) ∧
    ∀ s', start_connection freshSession .connectionError ≠ .started s' :=
  ⟨by simp, (C3_start_failure_behavior freshSession .connectionError (by simp)).2.2.2⟩

/-- C4.  In every run of the acquisition loop in which every read is a
miss and some iteration's clock exceeds the timeout window measured from
loop start, the session ends with `stopped = true` through the loop's own
teardown (`recv_thread_loop` invokes `close_connection` itself; no
external stop occurs in the run); moreover the staleness check fires on
any iteration whose elapsed time exceeds the timeout regardless of
whether that iteration's read succeeded. -/
theorem C4_staleness_shutdown (s : RTSPState) (t0 : ℚ) (inps : List IterInput)
    (hrun : s.stopped = false)
    (hmiss : ∀ inp ∈ inps, inp.readResult = none)
    (hex : ∃ inp ∈ inps, inp.now - t0 > s.connection_timeout) :
    (recv_thread_loop s t0 inps).stopped = true ∧
    (∀ (s' : RTSPState) (inp : IterInput),
      inp.now - s'.last_image_time > s'.connection_timeout →
      (recv_iter s' inp).1.stopped = true ∧ (recv_iter s' inp).2 = true) := by
  constructor
  · exact recv_loop_all_miss_timeout_stopped inps _ (by simpa using hrun)
      (by simpa using hmiss) (by simpa using hex)
  · intro s' inp hto
    simp [recv_iter, if_pos hto, close_connection]

/-- C4, witness: a fresh session whose only read is a miss at time `20`
against timeout `10` and loop start `0` ends stopped. -/
theorem C4_witness :
    freshSession.stopped = false ∧
    (∀ inp ∈ [IterInput.mk none 20 false], inp.readResult = none) ∧
    (∃ inp ∈ [IterInput.mk none 20 false],
      inp.now - 0 > freshSession.connection_timeout) ∧
    (recv_thread_loop freshSession 0 [IterInput.mk none 20 false]).stopped = true :=
  ⟨rfl, by simp, ⟨IterInput.mk none 20 false, by simp, by norm_num [freshSession]⟩,
    (C4_staleness_shutdown freshSession 0 [IterInput.mk none 20 false] rfl (by simp)
      ⟨IterInput.mk none 20 false, by simp, by norm_num [freshSession]⟩).1⟩

/-- C5, counterexample.  The claim states that the second of two
`close_connection` calls observes `stopped` already true and performs no
further close action; but `close_connection` has no such guard: at the
concrete fresh session, after two calls the stream has been stopped
twice, not once. -/
theorem C5_counterexample :
    (close_connection (close_connection freshSession)).streamStopCount = 2 ∧
    (close_connection freshSession).streamStopCount = 1 ∧
    (close_connection (close_connection freshSession)).stopped = true :=
  ⟨rfl, rfl, rfl⟩

/-- C5, amended.  Two sequential `close_connection` calls perform the
teardown twice — there is no single-shot guard, so the second call stops
the stream and destroys the windows again — while `stopped` is true after
the first call and remains true after the second. -/
theorem C5_double_close_teardown_twice (s : RTSPState) :
    (close_connection (close_connection s)).streamStopCount = s.streamStopCount + 2 ∧
    (close_connection (close_connection s)).destroyAllWindowsCount =
      s.destroyAllWindowsCount + 2 ∧
    (close_connection s).stopped = true ∧
    (close_connection (close_connection s)).stopped = true :=
  ⟨rfl, rfl, rfl, rfl⟩

/-- C6.  The `stopped` flag is a one-way latch: it is false at session
creation (the state a successful constructor run yields), and no session
operation — a loop iteration, a `close_connection`, the preview toggle, a
frame query, or a `start_connection` — ever takes it from true back to
false, hence along any sequence of operations it transitions false→true
at most once and stays true from then on. -/
theorem C6_stopped_one_way_latch :
    freshSession.stopped = false ∧
    (∀ (s : RTSPState) (op : SessionOp), s.stopped = true → (applyOp s op).stopped = true) ∧
    (∀ (s : RTSPState) (ops : List SessionOp), s.stopped = true →
      (ops.foldl applyOp s).stopped = true) := by
  have mono : ∀ (s : RTSPState) (op : SessionOp),
      s.stopped = true → (applyOp s op).stopped = true := by
    intro s op hs
    cases op with
    | loopIter inp => simp [applyOp, hs]
    | close => simp [applyOp, close_connection]
    | setShowWindow b => simpa [applyOp] using hs
    | getFrame => simpa [applyOp] using hs
    | startConn outcome => cases outcome <;> simp [applyOp, start_connection, hs]
  refine ⟨rfl, mono, ?_⟩
  intro s ops
  induction ops generalizing s with
  | nil => intro h; simpa using h
  | cons op rest ih =>
    intro h
    exact ih _ (mono s op h)

/-- C6, witness: once stopped, a further operation (here a frame query)
still observes `stopped = true`. -/
theorem C6_witness :
    (close_connection freshSession).stopped = true ∧
    (applyOp (close_connection freshSession) .getFrame).stopped = true :=
  ⟨rfl, C6_stopped_one_way_latch.2.1 (close_connection freshSession) .getFrame rfl⟩

/-- C7.  For every integer in the signed 16-bit range
(`-2 ^ 15 ≤ intValue < 2 ^ 15`), decoding the encoding round-trips:
`toIntVal (toHexVal intValue 16) = some intValue`. -/
theorem C7_roundtrip_int16 (intValue : Int)
    (h1 : -(2 ^ 15) ≤ intValue) (h2 : intValue < 2 ^ 15) :
    toIntVal (toHexVal intValue 16) = some intValue := by
  have hm : ((1 <<< 16 : Nat) : Int) = 65536 := by
    rw [Nat.one_shiftLeft]
    norm_num
  have hparse := toHexVal_parse intValue 16
  rw [hm] at hparse
  have hemod : (intValue + 65536) % 65536 =
      intValue + 65536 - (if 0 ≤ intValue then 65536 else 0) := by
    rcases le_or_lt 0 intValue with h | h
    · rw [if_pos h]
      have heq : (intValue + 65536) % 65536 = intValue % 65536 := by
        have h' := Int.add_mul_emod_self_left (a := intValue) (b := 65536) (c := 1)
        rw [mul_one] at h'
        exact h'
      rw [heq, Int.emod_eq_of_lt h (by omega)]
      omega
    · rw [if_neg (not_le.mpr h)]
      rw [Int.emod_eq_of_lt (by omega) (by omega)]
      omega
  unfold toIntVal
  rw [hparse]
  simp only
  rcases le_or_lt 0 intValue with h | h
  · rw [if_pos h] at hemod
    have hn : ((intValue + 65536) % 65536).toNat = intValue.toNat := by omega
    rw [hn]
    have hlt : intValue.toNat < 32768 := by omega
    rw [if_neg (by
      intro hmask
      have := (land_bit15 intValue.toNat (by omega)).mp hmask
      omega)]
    simp [Int.toNat_of_nonneg h]
  · rw [if_neg (not_le.mpr h)] at hemod
    have hn : ((intValue + 65536) % 65536).toNat = (intValue + 65536).toNat := by omega
    rw [hn]
    have hge : 32768 ≤ (intValue + 65536).toNat := by omega
    rw [if_pos ((land_bit15 (intValue + 65536).toNat (by omega)).mpr hge)]
    have hcast : (((intValue + 65536).toNat : Int)) = intValue + 65536 :=
      Int.toNat_of_nonneg (by omega)
    rw [hcast, hm]
    congr 1
    omega

/-- C7, witness at the concrete in-range value `-3`
(`toHexVal (-3) 16 = "fffd"`, which decodes back to `-3`). -/
theorem C7_witness :
    (-(2 ^ 15) ≤ (-3 : Int)) ∧ ((-3 : Int) < 2 ^ 15) ∧
    toIntVal (toHexVal (-3) 16) = some (-3) :=
  ⟨by norm_num, by norm_num, C7_roundtrip_int16 (-3) (by norm_num) (by norm_num)⟩

/-- C8.  Every invocation of any of the six self-referential property
getters or setters (`image_width`, `image_height`, `debug`,
`show_window`, `stopped`, `connection_timeout`) only re-invokes itself:
at every fuel bound the fuel-indexed embedding returns `none`, i.e. no
terminating evaluation of these accessors exists. -/
theorem C8_property_accessors_never_return :
    (∀ fuel, image_width_get fuel = none) ∧
    (∀ (v : Int) (fuel : Nat), image_width_set v fuel = none) ∧
    (∀ fuel, image_height_get fuel = none) ∧
    (∀ (v : Int) (fuel : Nat), image_height_set v fuel = none) ∧
    (∀ fuel, debug_get fuel = none) ∧
    (∀ (v : Bool) (fuel : Nat), debug_set v fuel = none) ∧
    (∀ fuel, show_window_get fuel = none) ∧
    (∀ (v : Bool) (fuel : Nat), show_window_set v fuel = none) ∧
    (∀ fuel, stopped_get fuel = none) ∧
    (∀ (v : Bool) (fuel : Nat), stopped_set v fuel = none) ∧
    (∀ fuel, connection_timeout_get fuel = none) ∧
    (∀ (v : ℚ) (fuel : Nat), connection_timeout_set v fuel = none) := by
  refine ⟨?_, ?_, ?_, ?_, ?_, ?_, ?_, ?_, ?_, ?_, ?_, ?_⟩
  · intro fuel
    induction fuel with
    | zero => rfl
    | succ n ih => rw [image_width_get]; exact ih
  · intro v fuel
    induction fuel with
    | zero => rfl
    | succ n ih => rw [image_width_set]; exact ih
  · intro fuel
    induction fuel with
    | zero => rfl
    | succ n ih => rw [image_height_get]; exact ih
  · intro v fuel
    induction fuel with
    | zero => rfl
    | succ n ih => rw [image_height_set]; exact ih
  · intro fuel
    induction fuel with
    | zero => rfl
    | succ n ih => rw [debug_get]; exact ih
  · intro v fuel
    induction fuel with
    | zero => rfl
    | succ n ih => rw [debug_set]; exact ih
  · intro fuel
    induction fuel with
    | zero => rfl
    | succ n ih => rw [show_window_get]; exact ih
  · intro v fuel
    induction fuel with
    | zero => rfl
    | succ n ih => rw [show_window_set]; exact ih
  · intro fuel
    induction fuel with
    | zero => rfl
    | succ n ih => rw [stopped_get]; exact ih
  · intro v fuel
    induction fuel with
    | zero => rfl
    | succ n ih => rw [stopped_set]; exact ih
  · intro fuel
    induction fuel with
    | zero => rfl
    | succ n ih => rw [connection_timeout_get]; exact ih
  · intro v fuel
    induction fuel with
    | zero => rfl
    | succ n ih => rw [connection_timeout_set]; exact ih

/-- C9.  For every integer `intValue` (in or out of range) and every
positive bit width `nbits`, `toHexVal intValue nbits` returns without
error a string of exactly `(nbits + 3) / 4` (that is, `⌈nbits / 4⌉`)
characters, all lowercase hex digits, whose unsigned base-16 value is
`intValue mod 2 ^ nbits` — out-of-range inputs are silently wrapped
two's-complement style, never rejected. -/
theorem C9_toHexVal_total_wrap (intValue : Int) (nbits : Nat) (hpos : 0 < nbits) :
    (toHexVal intValue nbits).length = (nbits + 3) / 4 ∧
    parseHexNat (toHexVal intValue nbits).data =
      some ((intValue % ((1 <<< nbits : Nat) : Int)).toNat) ∧
    ∀ c ∈ (toHexVal intValue nbits).data, isLowerHexChar c = true := by
  have hshift : (1 <<< nbits : Nat) = 2 ^ nbits := Nat.one_shiftLeft nbits
  have hmpos : (0 : Int) < ((1 <<< nbits : Nat) : Int) := by
    rw [hshift]
    positivity
  have hemod : (intValue + ((1 <<< nbits : Nat) : Int)) % ((1 <<< nbits : Nat) : Int) =
      intValue % ((1 <<< nbits : Nat) : Int) := by
    have h' := Int.add_mul_emod_self_left (a := intValue)
      (b := ((1 <<< nbits : Nat) : Int)) (c := 1)
    rw [mul_one] at h'
    exact h'
  have hlt : intValue % ((1 <<< nbits : Nat) : Int) < ((1 <<< nbits : Nat) : Int) :=
    Int.emod_lt_of_pos _ hmpos
  have hge : (0 : Int) ≤ intValue % ((1 <<< nbits : Nat) : Int) :=
    Int.emod_nonneg _ (ne_of_gt hmpos)
  have hk : 0 < (nbits + 3) / 4 := by omega
  have hMbound : (1 <<< nbits : Nat) ≤ 16 ^ ((nbits + 3) / 4) := by
    rw [hshift]
    calc 2 ^ nbits ≤ 2 ^ (4 * ((nbits + 3) / 4)) :=
          Nat.pow_le_pow_right (by norm_num) (by omega)
    _ = 16 ^ ((nbits + 3) / 4) := by
          rw [pow_mul]
          norm_num
  have hnlt : (intValue % ((1 <<< nbits : Nat) : Int)).toNat < 1 <<< nbits := by omega
  have hbound : (intValue % ((1 <<< nbits : Nat) : Int)).toNat < 16 ^ ((nbits + 3) / 4) := by
    omega
  refine ⟨?_, ?_, ?_⟩
  · show (zfill ((nbits + 3) / 4) (formatHex _)).length = (nbits + 3) / 4
    rw [zfill_length]
    rw [hemod]
    have := formatHex_length_le hbound hk
    omega
  · rw [toHexVal_parse, hemod]
  · intro c hc
    have hc' : c ∈ zfill ((nbits + 3) / 4)
        (formatHex ((intValue + ((1 <<< nbits : Nat) : Int)) %
          ((1 <<< nbits : Nat) : Int)).toNat) := hc
    rw [zfill, List.mem_append] at hc'
    rcases hc' with hrep | hfmt
    · rw [List.mem_replicate] at hrep
      rw [hrep.2]
      decide
    · exact formatHex_chars _ c hfmt

/-- C9, witness at the out-of-range value `-70000` with width `16`
(wrapped value `-70000 mod 65536 = 61072`, rendered `"ee90"`). -/
theorem C9_witness :
    0 < 16 ∧
    (toHexVal (-70000) 16).length = (16 + 3) / 4 ∧
    parseHexNat (toHexVal (-70000) 16).data =
      some (((-70000 : Int) % ((1 <<< 16 : Nat) : Int)).toNat) ∧
    ∀ c ∈ (toHexVal (-70000) 16).data, isLowerHexChar c = true :=
  ⟨by norm_num,
    (C9_toHexVal_total_wrap (-70000) 16 (by norm_num)).1,
    (C9_toHexVal_total_wrap (-70000) 16 (by norm_num)).2.1,
    (C9_toHexVal_total_wrap (-70000) 16 (by norm_num)).2.2⟩

/-- C10.  Constructing a session performs session start: whenever the
constructor returns a session state at all, that state records exactly
one stream open (for the URL obtained by substituting the port into the
address template) and one receive-thread start, and is not stopped; with
the source's default arguments the formatted URL is the concrete RTSP
address with port `8554` substituted.  On failing outcomes the
constructor does not return a session at all, so no constructed session
exists that has not attempted connection. -/
theorem C10_init_starts_connection (rtsp_url rtsp_port camera_name : String) (debug : Bool)
    (tInit : ℚ) (outcome : OpenOutcome) (s : RTSPState)
    (h : SIYI_RTSP_init rtsp_url rtsp_port camera_name debug tInit outcome = .started s) :
    s.streamOpenCount = 1 ∧ s.threadStartCount = 1 ∧
    s.rtsp_url = String.mk (formatPort rtsp_url.data rtsp_port.data) ∧
    s.stopped = false ∧
    String.mk (formatPort default_rtsp_url.data default_rtsp_port.data) =
      "rtsp://192.168.144.25:8554/main.264" := by
  cases outcome with
  | ok =>
    simp only [SIYI_RTSP_init, start_connection, StartResult.started.injEq] at h
    subst h
    exact ⟨rfl, rfl, rfl, rfl, rfl⟩
  | connectionError => simp [SIYI_RTSP_init, start_connection] at h
  | fileNotFound fn => simp [SIYI_RTSP_init, start_connection] at h
  | otherError => simp [SIYI_RTSP_init, start_connection] at h

/-- C10, witness: the default-argument constructor with a successful open
yields exactly the fresh session, whose counters record the stream open
and thread start. -/
theorem C10_witness :
    SIYI_RTSP_init default_rtsp_url default_rtsp_port default_camera_name false 0 .ok
      = .started freshSession ∧
    freshSession.streamOpenCount = 1 ∧ freshSession.threadStartCount = 1 ∧
    freshSession.rtsp_url = String.mk (formatPort default_rtsp_url.data default_rtsp_port.data) :=
  ⟨rfl,
    (C10_init_starts_connection default_rtsp_url default_rtsp_port default_camera_name
      false 0 .ok freshSession rfl).1,
    (C10_init_starts_connection default_rtsp_url default_rtsp_port default_camera_name
      false 0 .ok freshSession rfl).2.1,
    (C10_init_starts_connection default_rtsp_url default_rtsp_port default_camera_name
      false 0 .ok freshSession rfl).2.2.1⟩
